import Mathlib

/-!
# Verification of the kubernetes-mcp-server runtime against its specification

This development shallowly embeds the parts of the kubernetes-mcp-server Go
repository that the verified claims are about, and proves (or refutes) each
claim over the embedding.

Conventions:
* Go strings become `String`, Go slices become `List`, Go `nil`-able slices
  become `Option (List _)` when the code distinguishes `nil` from empty.
* Stateful Go methods (which mutate their receiver) become functions
  `State → State × result` (explicit state passing).
* Calls into external libraries (JWT parsing, the Kubernetes RESTMapper,
  the OAuth exchanger network round trip, ...) become function parameters
  of the embedding (oracles); the repository's own logic is translated
  directly from the source.
-/

namespace KubernetesMcpServer

/-! ## Configuration data model

`StaticConfig` (pkg/config) — the fields used by the verified claims.
`EnabledTools`/`DisabledTools` are `[]string` slices whose `nil`-ness is
significant in `Configuration.isToolApplicable`, hence `Option (List String)`.
-/

structure DeniedResource where
  group : String
  version : String
  kind : String
deriving DecidableEq, Repr

structure StaticConfig where
  port : String := ""
  kubeConfig : String := ""
  clusterProviderStrategy : String := ""
  requireOAuth : Bool := false
  oauthAudience : String := ""
  authorizationURL : String := ""
  serverURL : String := ""
  certificateAuthority : String := ""
  readOnly : Bool := false
  disableDestructive : Bool := false
  toolsets : List String := []
  enabledTools : Option (List String) := none
  disabledTools : Option (List String) := none
  deniedResources : List DeniedResource := []
  prompts : List String := []
deriving DecidableEq, Repr

/-! ## Cluster-provider strategy resolution (C9)

From `resolveStrategy` (pkg/kubernetes provider registry):
explicit strategy wins; otherwise a non-empty kubeconfig path selects the
kubeconfig strategy; otherwise successful in-cluster detection selects the
in-cluster strategy; otherwise kubeconfig is the fallback.
The constants mirror the `api.ClusterProvider*` names used by the source.
-/

def ClusterProviderKubeConfig : String := "kubeconfig"

def ClusterProviderInCluster : String := "in-cluster"

def ClusterProviderDisabled : String := "disabled"

/-- `resolveStrategy(cfg api.BaseConfig) string`.  The outcome of the
`InClusterConfig()` probe is an environment fact, passed as `inClusterOk`. -/
def resolveStrategy (cfg : StaticConfig) (inClusterOk : Bool) : String :=
  if cfg.clusterProviderStrategy ≠ "" then cfg.clusterProviderStrategy
  else if cfg.kubeConfig ≠ "" then ClusterProviderKubeConfig
  else if inClusterOk then ClusterProviderInCluster
  else ClusterProviderKubeConfig

/-! ## Option completion (C10)

From `MCPServerOptions.Complete` (cmd): after config read and flag load,
`RequireOAuth` is forced to `false` when the transport port is empty
(stdio transport).  `completeStatic` is that final override step; `Complete`
runs before `Validate` and `Run` in the command's `RunE`.
-/

def completeStatic (cfg : StaticConfig) : StaticConfig :=
  if cfg.requireOAuth ∧ cfg.port = "" then { cfg with requireOAuth := false } else cfg

/-- The `RunE` pipeline order: `Complete` (ending in `completeStatic`), then
`Validate`, then `Run`.  `validate`/`run` are oracles for the parts of the
pipeline the claim does not inspect; what matters is that both observe the
completed configuration. -/
def runEPipeline (cfg : StaticConfig) (validate : StaticConfig → Option String)
    (run : StaticConfig → Option String) : StaticConfig × Option String :=
  let completed := completeStatic cfg
  match validate completed with
  | some e => (completed, some e)
  | none => (completed, run completed)

/-! ## Tool-call target extraction (C6)

From `ToolCallRequest.GetString` and the tool handler in
`ServerToolToGoSdkTool` (pkg/mcp): the handler computes
`cluster := toolCallRequest.GetString(s.p.GetTargetParameterName(), s.p.GetDefaultTarget())`.
Go's `map[string]any` argument values are modelled by `ArgValue`.
-/

inductive ArgValue where
  | str (s : String)
  | nonString
deriving DecidableEq, Repr

/-- `GetString(key, defaultValue)`: returns the argument when it is present
and is a string (type assertion `value.(string)` succeeds), otherwise the
default. -/
def getString (arguments : List (String × ArgValue)) (key defaultValue : String) : String :=
  match arguments.find? (fun p => p.1 = key) with
  | some (_, ArgValue.str s) => s
  | some (_, ArgValue.nonString) => defaultValue
  | none => defaultValue

/-- The provider facts the handler consults (`GetTargetParameterName`,
`GetDefaultTarget`). -/
structure ProviderInfo where
  targetParameterName : String
  defaultTarget : String
deriving DecidableEq, Repr

/-- The target ("cluster") selection performed by the Go-SDK tool handler. -/
def selectCluster (p : ProviderInfo) (arguments : List (String × ArgValue)) : String :=
  getString arguments p.targetParameterName p.defaultTarget

/-! ## Token exchange protocol (pkg/tokenexchange) — C5, C7

`url.Values` (a Go map from key to values, used here with single-valued
`Set`) is modelled as an association list without duplicate keys; `Set`
replaces the binding or appends a new one, `Get` returns the binding.
HTTP headers are modelled the same way.
-/

abbrev Values := List (String × String)

def valuesSet : Values → String → String → Values
  | [], k, v => [(k, v)]
  | (k0, v0) :: rest, k, v =>
    if k0 = k then (k, v) :: valuesSet rest k v else (k0, v0) :: valuesSet rest k v

def valuesGet : Values → String → Option String
  | [], _ => none
  | (k0, v0) :: rest, k => if k0 = k then some v0 else valuesGet rest k

/-- Constants from pkg/tokenexchange (grant/token-type URNs). -/
def GrantTypeTokenExchange : String := "urn:ietf:params:oauth:grant-type:token-exchange"

def TokenTypeAccessToken : String := "urn:ietf:params:oauth:token-type:access_token"

/-- Form field keys from pkg/tokenexchange. -/
def FormKeyGrantType : String := "grant_type"

def FormKeySubjectToken : String := "subject_token"

def FormKeySubjectTokenType : String := "subject_token_type"

def FormKeySubjectIssuer : String := "subject_issuer"

def FormKeyAudience : String := "audience"

def FormKeyClientID : String := "client_id"

def FormKeyClientSecret : String := "client_secret"

def FormKeyScope : String := "scope"

def FormKeyRequestedTokenType : String := "requested_token_type"

def HeaderAuthorization : String := "Authorization"

def ContentTypeXWWWFormUrlEncoded : String := "application/x-www-form-urlencoded"

def AuthStyleParams : String := "params"

def AuthStyleHeader : String := "header"

def StrategyKeycloakV1 : String := "keycloak-v1"

def StrategyRFC8693 : String := "rfc8693"

/-- `TargetTokenExchangeConfig` (pkg/tokenexchange/config.go), the TOML-mapped
fields (the cached `client` field is connection state, not data). -/
structure TargetTokenExchangeConfig where
  tokenURL : String := ""
  clientID : String := ""
  clientSecret : String := ""
  audience : String := ""
  subjectTokenType : String := ""
  subjectIssuer : String := ""
  scopes : List String := []
  caFile : String := ""
  authStyle : String := ""
deriving DecidableEq, Repr

/-- The 30-second timeout set on the HTTP client built by
`TargetTokenExchangeConfig.HTTPCLient` (config.go: `Timeout: 30 * time.Second`). -/
def tokenExchangeHTTPClientTimeoutSeconds : Nat := 30

/-- Standard base64 alphabet (`encoding/base64` `StdEncoding`). -/
def base64Alphabet : List Char :=
  "ABCDEFGHIJKLMNOPQRSTUVWXYZabcdefghijklmnopqrstuvwxyz0123456789+/".data

def base64Digit (n : Nat) : Char := base64Alphabet.getD n '='

/-- One base64 output group for a block of at most three input bytes,
padded with `=` as in `StdEncoding`. -/
def base64Block : List Nat → List Char
  | [a, b, c] => [base64Digit (a / 4), base64Digit (a % 4 * 16 + b / 16),
                  base64Digit (b % 16 * 4 + c / 64), base64Digit (c % 64)]
  | [a, b] => [base64Digit (a / 4), base64Digit (a % 4 * 16 + b / 16),
               base64Digit (b % 16 * 4), '=']
  | [a] => [base64Digit (a / 4), base64Digit (a % 4 * 16), '=', '=']
  | _ => []

def base64EncodeBytes : List Nat → List Char
  | a :: b :: c :: rest => base64Block [a, b, c] ++ base64EncodeBytes rest
  | rest => base64Block rest

/-- `base64.StdEncoding.EncodeToString([]byte(s))` on a string's UTF-8 bytes. -/
def base64EncodeString (s : String) : String :=
  String.mk (base64EncodeBytes (s.toUTF8.toList.map (fun b => b.toNat)))

/-- `injectClientAuth(cfg, data, header)` (pkg/tokenexchange): adds client
credentials to the form body (`auth_style` empty or `params`) or as an HTTP
Basic `Authorization` header (`auth_style=header`); does nothing when no
client id is configured.  Returns the updated `(data, header)` pair. -/
def injectClientAuth (cfg : TargetTokenExchangeConfig) (data : Values) (header : Values) :
    Values × Values :=
  if cfg.clientID = "" then (data, header)
  else if cfg.authStyle = AuthStyleHeader then
    (data,
     valuesSet header HeaderAuthorization
       ("Basic " ++ base64EncodeString (cfg.clientID ++ ":" ++ cfg.clientSecret)))
  else
    let data := valuesSet data FormKeyClientID cfg.clientID
    let data := if cfg.clientSecret ≠ "" then valuesSet data FormKeyClientSecret cfg.clientSecret
                else data
    (data, header)

/-- The HTTP request assembled by `doTokenExchange` before it is sent: POST to
the token URL, `Content-Type: application/x-www-form-urlencoded`, and the
form data (whose URL-encoding becomes the body). -/
structure ExchangeRequest where
  method : String
  url : String
  contentTypeHeader : String
  form : Values
  headers : Values
deriving DecidableEq, Repr

def buildExchangeRequest (tokenURL : String) (data : Values) (headers : Values) :
    ExchangeRequest :=
  { method := "POST", url := tokenURL, contentTypeHeader := ContentTypeXWWWFormUrlEncoded,
    form := data, headers := headers }

/-- The form data assembled by `rfc8693Exchanger.Exchange` before client
authentication is injected. -/
def rfc8693CoreForm (cfg : TargetTokenExchangeConfig) (subjectToken : String) : Values :=
  let data := valuesSet [] FormKeyGrantType GrantTypeTokenExchange
  let data := valuesSet data FormKeySubjectToken subjectToken
  let data := valuesSet data FormKeySubjectTokenType cfg.subjectTokenType
  let data := valuesSet data FormKeyAudience cfg.audience
  let data := valuesSet data FormKeyRequestedTokenType TokenTypeAccessToken
  if cfg.scopes.length > 0 then
    valuesSet data FormKeyScope (String.intercalate " " cfg.scopes)
  else data

/-- The form data assembled by `keycloakV1Exchanger.Exchange` before client
authentication is injected. -/
def keycloakV1CoreForm (cfg : TargetTokenExchangeConfig) (subjectToken : String) : Values :=
  let data := valuesSet [] FormKeyGrantType GrantTypeTokenExchange
  let data := valuesSet data FormKeySubjectToken subjectToken
  let data := valuesSet data FormKeySubjectTokenType cfg.subjectTokenType
  let data := valuesSet data FormKeyAudience cfg.audience
  let data := if cfg.subjectIssuer ≠ "" then
                valuesSet data FormKeySubjectIssuer cfg.subjectIssuer
              else data
  if cfg.scopes.length > 0 then
    valuesSet data FormKeyScope (String.intercalate " " cfg.scopes)
  else data

/-- `rfc8693Exchanger.Exchange`: the request it builds for a configuration and
subject token (the network send and response handling are
`doTokenExchangeResult` below). -/
def rfc8693ExchangeRequest (cfg : TargetTokenExchangeConfig) (subjectToken : String) :
    ExchangeRequest :=
  let dh := injectClientAuth cfg (rfc8693CoreForm cfg subjectToken) []
  buildExchangeRequest cfg.tokenURL dh.1 dh.2

/-- `keycloakV1Exchanger.Exchange`: the request it builds — same core form,
plus `subject_issuer` when configured, and no `requested_token_type`. -/
def keycloakV1ExchangeRequest (cfg : TargetTokenExchangeConfig) (subjectToken : String) :
    ExchangeRequest :=
  let dh := injectClientAuth cfg (keycloakV1CoreForm cfg subjectToken) []
  buildExchangeRequest cfg.tokenURL dh.1 dh.2

/-- `oauth2.Token` fields populated by `doTokenExchange`. -/
structure Token where
  accessToken : String := ""
  tokenType : String := ""
  refreshToken : String := ""
deriving DecidableEq, Repr

/-- The decoded JSON token-exchange response (`tokenExchangeResponse`). -/
structure TokenExchangeResponse where
  accessToken : String := ""
  tokenType : String := ""
  expiresIn : Nat := 0
  refreshToken : String := ""
deriving DecidableEq, Repr

structure HttpResponse where
  statusCode : Nat
  body : String
deriving DecidableEq, Repr

/-- The response-handling half of `doTokenExchange`: a non-200 status becomes
`fmt.Errorf("token exchange failed with status %d: %s", resp.StatusCode, string(body))`
— the error text carries the status code and the raw response body; a 200
response is JSON-decoded (`parseJson` stands for `json.Unmarshal`). -/
def doTokenExchangeResult (resp : HttpResponse)
    (parseJson : String → Except String TokenExchangeResponse) : Except String Token :=
  if resp.statusCode ≠ 200 then
    Except.error ("token exchange failed with status " ++ toString resp.statusCode ++ ": "
      ++ resp.body)
  else
    match parseJson resp.body with
    | Except.error e => Except.error ("failed to parse token exchange response: " ++ e)
    | Except.ok tokenResp =>
      Except.ok { accessToken := tokenResp.accessToken, tokenType := tokenResp.tokenType,
                  refreshToken := tokenResp.refreshToken }

/-! ## Per-target token exchange in the request context (C3)

From `ExchangeTokenInContext` / `stsExchangeTokenInContext`
(pkg/kubernetes).  A Go `context.Context` is a chain of `WithValue` wrappers;
`Value(key)` returns the innermost binding.  Modelled as an association list
whose head is the innermost binding.
-/

inductive CtxValue where
  | str (s : String)
  | httpClient
deriving DecidableEq, Repr

abbrev Ctx := List (String × CtxValue)

/-- `ctx.Value(key)`: innermost (most recently added) binding. -/
def ctxValue : Ctx → String → Option CtxValue
  | [], _ => none
  | p :: rest, k => if p.1 = k then some p.2 else ctxValue rest k

/-- `context.WithValue(ctx, key, value)`. -/
def ctxWithValue (ctx : Ctx) (k : String) (v : CtxValue) : Ctx := (k, v) :: ctx

/-- The `OAuthAuthorizationHeader` context key constant (pkg/kubernetes);
its concrete value is opaque to the claims. -/
def OAuthAuthorizationHeaderKey : String := "kubernetes-authorization-header"

/-- The `oauth2.HTTPClient` context key used by the legacy STS path. -/
def OAuth2HTTPClientKey : String := "oauth2-http-client"

/-- `strings.HasPrefix(s, pre)` — defined on the character data so that
witnesses evaluate inside the kernel (ASCII prefixes make the char/byte
distinction irrelevant). -/
def startsWithStr (s pre : String) : Bool := List.isPrefixOf pre.data s.data

/-- `strings.TrimPrefix(s, "Bearer ")`. -/
def trimBearer (s : String) : String :=
  if startsWithStr s "Bearer " then String.mk (s.data.drop "Bearer ".data.length) else s

/-- The collaborators of `ExchangeTokenInContext`, as oracles:
whether the provider implements `TokenExchangeProvider`, its per-target
config and strategy, the registry contents, the exchanger's network
behaviour, and the legacy STS exchanger state. -/
structure TokenExchangeEnv where
  hasTokenExchangeProvider : Bool
  getTokenExchangeConfig : String → Option TargetTokenExchangeConfig
  strategy : String
  registeredStrategies : List String
  exchange : TargetTokenExchangeConfig → String → Except String Token
  stsEnabled : Bool
  hasHTTPClient : Bool
  stsExchange : String → Except String Token

/-- `stsExchangeTokenInContext`: the legacy server-level exchange.  Disabled
STS returns the context unchanged; otherwise the HTTP client is attached (when
present), and only a successful exchange replaces the Authorization value. -/
def stsExchangeTokenInContext (env : TokenExchangeEnv) (ctx : Ctx) (token : String) : Ctx :=
  if ¬ env.stsEnabled then ctx
  else
    let ctx := if env.hasHTTPClient then ctxWithValue ctx OAuth2HTTPClientKey CtxValue.httpClient
               else ctx
    match env.stsExchange token with
    | Except.error _ => ctx
    | Except.ok t => ctxWithValue ctx OAuthAuthorizationHeaderKey
        (CtxValue.str ("Bearer " ++ t.accessToken))

/-- `ExchangeTokenInContext(ctx, cfg, oidcProvider, httpClient, provider, target)`:
no bearer on the context returns it unchanged; a provider without per-target
config (or an unregistered strategy) falls back to the STS path; a per-target
exchange error returns the context unchanged; success replaces the
Authorization value with the exchanged access token. -/
def exchangeTokenInContext (env : TokenExchangeEnv) (ctx : Ctx) (target : String) : Ctx :=
  match ctxValue ctx OAuthAuthorizationHeaderKey with
  | some (CtxValue.str auth) =>
    if startsWithStr auth "Bearer " then
      let subjectToken := trimBearer auth
      if ¬ env.hasTokenExchangeProvider then stsExchangeTokenInContext env ctx subjectToken
      else
        match env.getTokenExchangeConfig target with
        | none => stsExchangeTokenInContext env ctx subjectToken
        | some exCfg =>
          if env.registeredStrategies.contains env.strategy then
            match env.exchange exCfg subjectToken with
            | Except.error _ => ctx
            | Except.ok tok => ctxWithValue ctx OAuthAuthorizationHeaderKey
                (CtxValue.str ("Bearer " ++ tok.accessToken))
          else stsExchangeTokenInContext env ctx subjectToken
    else ctx
  | _ => ctx

/-! ## Toolset reconciliation and configuration reload (pkg/mcp/mcp.go) — C2, C8

`Server.reloadToolsets` and `Server.ReloadConfiguration`.  The Go methods
mutate the `Server` receiver; here they are state-passing functions on
`ServerState`.  Collaborators that live outside pkg/mcp — the provider's
target enumeration, the `WithTargetParameter` mutator, the
`ShouldIncludeTargetListTool` filter, `prompts.MergePrompts` and the Go-SDK
prompt conversion — are oracles in `ReloadEnv` (deterministic functions,
which is all the claims need).
-/

structure ToolAnnotations where
  readOnlyHint : Option Bool := none
  destructiveHint : Option Bool := none
deriving DecidableEq, Repr

structure ServerTool where
  name : String
  annotations : ToolAnnotations := {}
deriving DecidableEq, Repr

structure ServerPrompt where
  name : String
deriving DecidableEq, Repr

structure Toolset where
  tools : List ServerTool
  prompts : List ServerPrompt
deriving Repr

/-- `Configuration.isToolApplicable` (mcp.go): read-only policy, destructive
policy, explicit allowlist (`EnabledTools != nil`), explicit denylist
(`DisabledTools != nil`). -/
def isToolApplicable (c : StaticConfig) (t : ServerTool) : Bool :=
  if c.readOnly && !(t.annotations.readOnlyHint.getD false) then false
  else if c.disableDestructive && t.annotations.destructiveHint.getD false then false
  else if (match c.enabledTools with
           | some l => !(l.contains t.name)
           | none => false) then false
  else if (match c.disabledTools with
           | some l => l.contains t.name
           | none => false) then false
  else true

structure ReloadEnv where
  /-- `s.p.GetTargets(ctx)` — may fail. -/
  targetsResult : Except String (List String)
  /-- `s.p.GetTargetParameterName()`. -/
  targetParameterName : String
  /-- `s.p.GetDefaultTarget()`. -/
  defaultTarget : String
  /-- `Configuration.Toolsets()` composed with `toolset.GetTools(s.p)` /
  `toolset.GetPrompts()` for the current provider snapshot. -/
  toolsetsOf : List String → List Toolset
  /-- `WithTargetParameter(defaultTarget, targetParameterName, targets)`. -/
  mutator : String → String → List String → ServerTool → ServerTool
  /-- `ShouldIncludeTargetListTool(targetParameterName, targets)`. -/
  targetListFilter : String → List String → ServerTool → Bool
  /-- `prompts.MergePrompts(toolsetPrompts, configPrompts)`. -/
  mergePrompts : List ServerPrompt → List ServerPrompt → List ServerPrompt
  /-- `ServerPromptToGoSdkPrompt` — may fail. -/
  convertPrompt : ServerPrompt → Except String Unit

/-- The observable pkg/mcp server state: the held configuration, the
`enabledTools` / `enabledPrompts` name lists, and the names registered with
the MCP runtime (`AddTool` / `RemoveTools`, `AddPrompt` / `RemovePrompts`). -/
structure ServerState where
  config : StaticConfig
  enabledTools : List String := []
  enabledPrompts : List String := []
  registeredTools : List String := []
  registeredPrompts : List String := []
deriving DecidableEq, Repr

/-- `AddTool`/`AddPrompt` into the runtime registry: a same-name registration
replaces the existing one, so the name set gains at most the new name. -/
def registryAdd (registry : List String) (name : String) : List String :=
  if registry.contains name then registry else registry ++ [name]

def registryAddAll (registry : List String) (names : List String) : List String :=
  names.foldl registryAdd registry

/-- The loop body of mcp.go lines 146–156: mutate each tool, apply the
composite filter (`isToolApplicable` and the target-list filter), and keep
the survivors in order. -/
def applicableTools (env : ReloadEnv) (cfg : StaticConfig) (targets : List String) :
    List ServerTool :=
  (env.toolsetsOf cfg.toolsets).flatMap (fun ts =>
    ts.tools.filterMap (fun tool =>
      let tool := env.mutator env.defaultTarget env.targetParameterName targets tool
      if isToolApplicable cfg tool && env.targetListFilter env.targetParameterName targets tool
      then some tool else none))

def computeEnabledTools (env : ReloadEnv) (cfg : StaticConfig) (targets : List String) :
    List String :=
  (applicableTools env cfg targets).map (fun t => t.name)

/-- mcp.go lines 160–165: the names in the previous list that are no longer
applicable. -/
def namesToRemove (previous newNames : List String) : List String :=
  previous.filter (fun t => !(newNames.contains t))

/-- mcp.go lines 180–189: embedded toolset prompts merged with the
user-declared config prompts (config wins on name collision, inside
`mergePrompts`). -/
def applicablePrompts (env : ReloadEnv) (cfg : StaticConfig) : List ServerPrompt :=
  env.mergePrompts ((env.toolsetsOf cfg.toolsets).flatMap (fun ts => ts.prompts))
    (cfg.prompts.map ServerPrompt.mk)

/-- mcp.go lines 207–213: register prompts one by one; a conversion failure
aborts the loop, keeping the registrations made so far. -/
def registerPromptsLoop (env : ReloadEnv) :
    List ServerPrompt → List String → List String × Option String
  | [], registry => (registry, none)
  | p :: rest, registry =>
    match env.convertPrompt p with
    | Except.error e =>
      (registry, some ("failed to convert prompt " ++ p.name ++ ": " ++ e))
    | Except.ok _ => registerPromptsLoop env rest (registryAdd registry p.name)

/-- `Server.reloadToolsets` (mcp.go lines 118–218), state-passing.  A failing
`GetTargets` returns the error with the state untouched; otherwise the new
tool list is computed, departures are removed before additions, and the same
is done for prompts. -/
def reloadToolsets (env : ReloadEnv) (s : ServerState) : ServerState × Option String :=
  match env.targetsResult with
  | Except.error e => (s, some e)
  | Except.ok targets =>
    let newTools := computeEnabledTools env s.config targets
    let toolsToRemove := namesToRemove s.enabledTools newTools
    let registeredTools :=
      registryAddAll (s.registeredTools.filter (fun t => !(toolsToRemove.contains t))) newTools
    let newPromptList := applicablePrompts env s.config
    let newPrompts := newPromptList.map (fun p => p.name)
    let promptsToRemove := namesToRemove s.enabledPrompts newPrompts
    let rp := registerPromptsLoop env newPromptList
      (s.registeredPrompts.filter (fun p => !(promptsToRemove.contains p)))
    ({ s with enabledTools := newTools, enabledPrompts := newPrompts,
              registeredTools := registeredTools, registeredPrompts := rp.1 }, rp.2)

/-- `Server.ReloadConfiguration` (mcp.go lines 265–281): the new
`StaticConfig` is installed on the server *before* `reloadToolsets` runs; a
reconciliation failure is returned wrapped, with the new config already in
place. -/
def reloadConfiguration (env : ReloadEnv) (s : ServerState) (newConfig : StaticConfig) :
    ServerState × Option String :=
  let s := { s with config := newConfig }
  match reloadToolsets env s with
  | (s', some e) => (s', some ("failed to reload toolsets: " ++ e))
  | (s', none) => (s', none)

/-- One iteration of the SIGHUP handler loop
(`MCPServerOptions.setupSIGHUPHandler`, cmd): a failing `config.Read` logs
and `continue`s without touching the server; otherwise `ReloadConfiguration`
is invoked. -/
def sighupReloadIteration (readResult : Except String StaticConfig) (env : ReloadEnv)
    (s : ServerState) : ServerState :=
  match readResult with
  | Except.error _ => s
  | Except.ok cfg => (reloadConfiguration env s cfg).1

/-! ## HTTP authorization middleware (pkg/http) — C4

`AuthorizationMiddleware` (src/unnamed/part_005).  JWT parsing
(`jwt.ParseSigned`), the jose claims validation and the OIDC provider
verification are external-library calls, passed as oracles; everything else
is translated from the middleware and its `JWTClaims` helpers.
-/

def healthEndpoint : String := "/healthz"

/-- Modelled from the spec: the `WellKnownEndpoints` slice referenced by
`AuthorizationMiddleware` is declared outside the provided sources; the spec
(§4.9, §6) and the http tests list exactly these three proxied endpoints. -/
def WellKnownEndpoints : List String :=
  ["/.well-known/oauth-authorization-server",
   "/.well-known/oauth-protected-resource",
   "/.well-known/openid-configuration"]

structure HttpRequest where
  path : String
  escapedPath : String
  authHeader : String
deriving DecidableEq, Repr

/-- `JWTClaims` (pkg/http): the embedded jose claims are validated through the
oracle; the fields the middleware reads directly are the raw token and the
`scope` claim. -/
structure JWTClaims where
  token : String := ""
  scope : String := ""
deriving DecidableEq, Repr

/-- `JWTClaims.GetScopes`: `strings.Fields(c.Scope)` (split on whitespace,
no empty fields); spaces are the only whitespace relevant to scope strings. -/
def getScopes (c : JWTClaims) : List String :=
  if c.scope = "" then [] else (c.scope.split (fun ch => ch = ' ')).filter (fun s => s ≠ "")

/-- `JWTClaims.ValidateOffline`: jose validation against an expected audience
(set only when the configured audience is non-empty), errors wrapped. -/
def validateOffline (joseValidate : JWTClaims → Option String → Option String)
    (c : JWTClaims) (audience : String) : Option String :=
  match joseValidate c (if audience ≠ "" then some audience else none) with
  | some e => some ("JWT token validation error: " ++ e)
  | none => none

/-- `JWTClaims.ValidateWithProvider`: a `nil` provider always passes;
otherwise the provider's verifier checks the raw token. -/
def validateWithProvider (provider : Option (String → Option String)) (c : JWTClaims) :
    Option String :=
  match provider with
  | none => none
  | some verify =>
    match verify c.token with
    | some e => some ("OIDC token validation error: " ++ e)
    | none => none

/-- The `WWW-Authenticate` base value built by the middleware:
`Bearer realm="Kubernetes MCP Server"` plus the audience when configured. -/
def wwwAuthenticateHeaderFor (cfg : StaticConfig) : String :=
  "Bearer realm=\"Kubernetes MCP Server\"" ++
    (if cfg.oauthAudience ≠ "" then ", audience=\"" ++ cfg.oauthAudience ++ "\"" else "")

/-- The middleware's observable outcome for one request: forwarded to the
next handler (with the parsed token scopes attached to the context after a
successful validation, `none` when no validation ran), or a 401 written by
`write401`. -/
inductive AuthOutcome where
  | forwarded (scopes : Option (List String))
  | unauthorized (wwwAuthenticate : String) (errorType : String) (message : String)
deriving DecidableEq, Repr

/-- `AuthorizationMiddleware(staticConfig, oidcProvider)` applied to one
request.  `parseJWT` stands for `ParseJWTClaims` (jose parsing),
`joseValidate` for the embedded `Claims.Validate`. -/
def authorizationMiddleware (cfg : StaticConfig)
    (provider : Option (String → Option String))
    (parseJWT : String → Except String JWTClaims)
    (joseValidate : JWTClaims → Option String → Option String)
    (r : HttpRequest) : AuthOutcome :=
  if r.path == healthEndpoint || WellKnownEndpoints.contains r.escapedPath then
    AuthOutcome.forwarded none
  else if !cfg.requireOAuth then
    AuthOutcome.forwarded none
  else
    let www := wwwAuthenticateHeaderFor cfg
    if r.authHeader == "" || !(startsWithStr r.authHeader "Bearer ") then
      AuthOutcome.unauthorized (www ++ ", error=\"missing_token\"") "missing_token"
        "Unauthorized: Bearer token required"
    else
      let token := trimBearer r.authHeader
      match parseJWT token with
      | Except.error _ =>
        AuthOutcome.unauthorized (www ++ ", error=\"invalid_token\"") "invalid_token"
          "Unauthorized: Invalid token"
      | Except.ok claims =>
        match validateOffline joseValidate claims cfg.oauthAudience with
        | some _ =>
          AuthOutcome.unauthorized (www ++ ", error=\"invalid_token\"") "invalid_token"
            "Unauthorized: Invalid token"
        | none =>
          match validateWithProvider provider claims with
          | some _ =>
            AuthOutcome.unauthorized (www ++ ", error=\"invalid_token\"") "invalid_token"
              "Unauthorized: Invalid token"
          | none => AuthOutcome.forwarded (some (getScopes claims))

/-! ## Access-control transport interceptor — C1

Modelled from the spec: `AccessControlRoundTripper.RoundTrip` itself is not
among the provided sources — only its test suite is — so the interceptor is
modelled from spec §4.3, constrained by the tests
(`TestRoundTripFor*`, src/unnamed/part_003).  One deviation forced by
consistency: the spec's discovery regex `^/api(s)?(/[^/]+(/[^/]+)?)?/?$` as
literally written would also match `/api/v1/pods`, contradicting both the
denial tests and spec steps 2–3; the model therefore treats as discovery
`/api` with at most one further segment (the version) and `/apis` with at
most two (group and version), which matches every test case.
-/

/-- The well-known unprotected endpoints of §4.3 step 1. -/
def unprotectedEndpoints : List String :=
  ["/healthz", "/readyz", "/livez", "/metrics", "/version"]

/-- Split on `/`, dropping empty segments (leading slash, trailing slash). -/
def splitSlashAux : List Char → List Char → List (List Char)
  | [], acc => [acc.reverse]
  | c :: rest, acc =>
    if c = '/' then acc.reverse :: splitSlashAux rest [] else splitSlashAux rest (c :: acc)

def pathSegments (p : String) : List String :=
  ((splitSlashAux p.data []).map (fun cs => String.mk cs)).filter (fun s => s ≠ "")

/-- Discovery endpoints: `/api` (optionally `/api/<version>`) and `/apis`
(optionally `/apis/<group>` or `/apis/<group>/<version>`), with or without a
trailing slash. -/
def isDiscoveryPath (p : String) : Bool :=
  match pathSegments p with
  | "api" :: rest => rest.length ≤ 1
  | "apis" :: rest => rest.length ≤ 2
  | _ => false

/-- §4.3 step 2: the segment after the group/version — skipping a
`/namespaces/<ns>` infix — is the resource. -/
def resourceFromRest : List String → Option String
  | [] => none
  | "namespaces" :: _ :: r :: _ => some r
  | ["namespaces", _] => none
  | r :: _ => some r

/-- §4.3 step 2: `^/api/v1` maps to the core group (empty string) and `v1`;
`^/apis/<g>/<v>` maps to `<g>/<v>`; the next segment is the resource. -/
def parseAPIPath (p : String) : Option (String × String × String) :=
  match pathSegments p with
  | "api" :: "v1" :: rest => (resourceFromRest rest).map (fun r => ("", "v1", r))
  | "apis" :: g :: v :: rest => (resourceFromRest rest).map (fun r => (g, v, r))
  | _ => none

structure GroupVersionKind where
  group : String
  version : String
  kind : String
deriving DecidableEq, Repr

/-- `schema.GroupVersionKind.String()` — the format appearing in the error
messages asserted by the tests (`/v1, Kind=Pod`,
`metrics.k8s.io/v1beta1, Kind=PodMetrics`). -/
def gvkString (g : GroupVersionKind) : String :=
  g.group ++ "/" ++ g.version ++ ", Kind=" ++ g.kind

/-- §3 denial rule: a rule matches when each non-empty field equals the
request's resolved GVK field (an empty field is a wildcard). -/
def ruleMatches (rule : DeniedResource) (g : GroupVersionKind) : Bool :=
  (rule.group == "" || rule.group == g.group) &&
  (rule.version == "" || rule.version == g.version) &&
  (rule.kind == "" || rule.kind == g.kind)

def isDeniedResource (denied : List DeniedResource) (g : GroupVersionKind) : Bool :=
  denied.any (fun r => ruleMatches r g)

/-- The observable outcome of one `RoundTrip`: the request was handed to the
delegate round-tripper, or an error was returned without any delegate call. -/
inductive RoundTripResult where
  | delegated
  | deniedErr (message : String)
  | requestErr (message : String)
deriving DecidableEq, Repr

/-- Modelled from the spec: `AccessControlRoundTripper.RoundTrip`.
`denied` is the `deniedResourcesProvider` (`nil` allows everything, per the
tests); `restMapper` resolves a resource plural to its kind and stands for
the cached discovery RESTMapper.  Unprotected and discovery endpoints
delegate without inspection; a RESTMapper failure surfaces as a request-layer
error (`failed to make request`, per the tests); a matching denial rule
returns the `resource not allowed: <GVK>` error before any delegation; paths
outside the API surface delegate (a modelling choice the claim never
exercises, since its hypotheses require a resolved GVK). -/
def accessControlRoundTrip (denied : Option (List DeniedResource))
    (restMapper : String → Except String String) (path : String) : RoundTripResult :=
  if unprotectedEndpoints.contains path || isDiscoveryPath path then
    RoundTripResult.delegated
  else
    match parseAPIPath path with
    | none => RoundTripResult.delegated
    | some (g, v, resource) =>
      match restMapper resource with
      | Except.error e => RoundTripResult.requestErr ("failed to make request: " ++ e)
      | Except.ok kind =>
        match denied with
        | none => RoundTripResult.delegated
        | some rules =>
          if isDeniedResource rules { group := g, version := v, kind := kind } then
            RoundTripResult.deniedErr ("resource not allowed: "
              ++ gvkString { group := g, version := v, kind := kind })
          else RoundTripResult.delegated

end KubernetesMcpServer

namespace KubernetesMcpServer

/-! ## Helper lemmas about the association-list map model -/

theorem valuesGet_set_eq (vs : Values) (k v : String) :
    valuesGet (valuesSet vs k v) k = some v := by
  induction vs with
  | nil => simp [valuesSet, valuesGet]
  | cons p rest ih =>
    obtain ⟨k0, v0⟩ := p
    by_cases h : k0 = k
    · simp [valuesSet, h, valuesGet]
    · simp [valuesSet, h, valuesGet, ih]

theorem valuesGet_set_ne (vs : Values) (k v k' : String) (h : k' ≠ k) :
    valuesGet (valuesSet vs k v) k' = valuesGet vs k' := by
  have hkk : ¬ (k = k') := fun hh => h hh.symm
  induction vs with
  | nil => simp [valuesSet, valuesGet, hkk]
  | cons p rest ih =>
    obtain ⟨k0, v0⟩ := p
    by_cases hp : k0 = k
    · simp [valuesSet, hp, valuesGet, hkk, ih]
    · simp [valuesSet, hp, valuesGet, ih]

theorem valuesGet_iteSet_ne (c : Prop) [Decidable c] (vs : Values) (k v k' : String)
    (h : k' ≠ k) :
    valuesGet (if c then valuesSet vs k v else vs) k' = valuesGet vs k' := by
  split
  · exact valuesGet_set_ne vs k v k' h
  · rfl

theorem injectClientAuth_form_other (cfg : TargetTokenExchangeConfig) (data header : Values)
    (k : String) (h1 : k ≠ FormKeyClientID) (h2 : k ≠ FormKeyClientSecret) :
    valuesGet (injectClientAuth cfg data header).1 k = valuesGet data k := by
  simp only [injectClientAuth]
  by_cases hid : cfg.clientID = ""
  · rw [if_pos hid]
  · rw [if_neg hid]
    by_cases hh : cfg.authStyle = AuthStyleHeader
    · rw [if_pos hh]
    · rw [if_neg hh]
      show valuesGet (if cfg.clientSecret ≠ "" then _ else _) k = _
      rw [valuesGet_iteSet_ne _ _ _ _ _ h2, valuesGet_set_ne _ _ _ _ h1]

theorem injectClientAuth_headers_other (cfg : TargetTokenExchangeConfig) (data header : Values)
    (k : String) (h : k ≠ HeaderAuthorization) :
    valuesGet (injectClientAuth cfg data header).2 k = valuesGet header k := by
  simp only [injectClientAuth]
  by_cases hid : cfg.clientID = ""
  · rw [if_pos hid]
  · rw [if_neg hid]
    by_cases hh : cfg.authStyle = AuthStyleHeader
    · rw [if_pos hh]
      exact valuesGet_set_ne _ _ _ _ h
    · rw [if_neg hh]

theorem injectClientAuth_params (cfg : TargetTokenExchangeConfig) (data header : Values)
    (hid : cfg.clientID ≠ "") (hstyle : cfg.authStyle ≠ AuthStyleHeader) :
    valuesGet (injectClientAuth cfg data header).1 FormKeyClientID = some cfg.clientID ∧
    (injectClientAuth cfg data header).2 = header := by
  simp only [injectClientAuth, if_neg hid, if_neg hstyle]
  refine ⟨?_, trivial⟩
  show valuesGet (if cfg.clientSecret ≠ "" then _ else _) FormKeyClientID = _
  rw [valuesGet_iteSet_ne _ _ _ _ _ (by decide), valuesGet_set_eq]

theorem injectClientAuth_headerStyle (cfg : TargetTokenExchangeConfig) (data header : Values)
    (hid : cfg.clientID ≠ "") (hstyle : cfg.authStyle = AuthStyleHeader) :
    (injectClientAuth cfg data header).1 = data ∧
    valuesGet (injectClientAuth cfg data header).2 HeaderAuthorization =
      some ("Basic " ++ base64EncodeString (cfg.clientID ++ ":" ++ cfg.clientSecret)) := by
  simp only [injectClientAuth, if_neg hid, if_pos hstyle]
  exact ⟨trivial, valuesGet_set_eq _ _ _⟩

/-- All the lookups into the rfc8693 core form in one lemma. -/
theorem rfc8693CoreForm_get (cfg : TargetTokenExchangeConfig) (tok : String) :
    valuesGet (rfc8693CoreForm cfg tok) FormKeyGrantType = some GrantTypeTokenExchange ∧
    valuesGet (rfc8693CoreForm cfg tok) FormKeySubjectToken = some tok ∧
    valuesGet (rfc8693CoreForm cfg tok) FormKeySubjectTokenType = some cfg.subjectTokenType ∧
    valuesGet (rfc8693CoreForm cfg tok) FormKeyAudience = some cfg.audience ∧
    valuesGet (rfc8693CoreForm cfg tok) FormKeyRequestedTokenType = some TokenTypeAccessToken ∧
    valuesGet (rfc8693CoreForm cfg tok) FormKeySubjectIssuer = none ∧
    valuesGet (rfc8693CoreForm cfg tok) FormKeyClientID = none ∧
    valuesGet (rfc8693CoreForm cfg tok) FormKeyClientSecret = none := by
  simp only [rfc8693CoreForm]
  refine ⟨?_, ?_, ?_, ?_, ?_, ?_, ?_, ?_⟩ <;>
    repeat first
      | rw [valuesGet_iteSet_ne _ _ _ _ _ (by decide)]
      | rw [valuesGet_set_eq]
      | rw [valuesGet_set_ne _ _ _ _ (by decide)]
      | rfl

/-- All the lookups into the keycloak-v1 core form in one lemma. -/
theorem keycloakV1CoreForm_get (cfg : TargetTokenExchangeConfig) (tok : String) :
    valuesGet (keycloakV1CoreForm cfg tok) FormKeyGrantType = some GrantTypeTokenExchange ∧
    valuesGet (keycloakV1CoreForm cfg tok) FormKeySubjectToken = some tok ∧
    valuesGet (keycloakV1CoreForm cfg tok) FormKeySubjectTokenType = some cfg.subjectTokenType ∧
    valuesGet (keycloakV1CoreForm cfg tok) FormKeyAudience = some cfg.audience ∧
    valuesGet (keycloakV1CoreForm cfg tok) FormKeyRequestedTokenType = none ∧
    (cfg.subjectIssuer ≠ "" →
      valuesGet (keycloakV1CoreForm cfg tok) FormKeySubjectIssuer = some cfg.subjectIssuer) ∧
    (cfg.subjectIssuer = "" →
      valuesGet (keycloakV1CoreForm cfg tok) FormKeySubjectIssuer = none) ∧
    valuesGet (keycloakV1CoreForm cfg tok) FormKeyClientID = none ∧
    valuesGet (keycloakV1CoreForm cfg tok) FormKeyClientSecret = none := by
  simp only [keycloakV1CoreForm]
  refine ⟨?_, ?_, ?_, ?_, ?_, ?_, ?_, ?_, ?_⟩
  case refine_6 =>
    intro hi
    rw [valuesGet_iteSet_ne _ _ _ _ _ (by decide), if_pos hi, valuesGet_set_eq]
  case refine_7 =>
    intro hi
    rw [valuesGet_iteSet_ne _ _ _ _ _ (by decide), if_neg (by simp [hi])]
    repeat first
      | rw [valuesGet_set_ne _ _ _ _ (by decide)]
      | rfl
  all_goals
    repeat first
      | rw [valuesGet_iteSet_ne _ _ _ _ _ (by decide)]
      | rw [valuesGet_set_eq]
      | rw [valuesGet_set_ne _ _ _ _ (by decide)]
      | rfl

/-! ## Theorems -/

/-- C9: the provider construction strategy resolution order: explicit
configured strategy first, then kubeconfig path, then in-cluster detection,
then kubeconfig fallback. -/
theorem resolveStrategy_order (cfg : StaticConfig) (inClusterOk : Bool) :
    (cfg.clusterProviderStrategy ≠ "" →
      resolveStrategy cfg inClusterOk = cfg.clusterProviderStrategy) ∧
    (cfg.clusterProviderStrategy = "" → cfg.kubeConfig ≠ "" →
      resolveStrategy cfg inClusterOk = ClusterProviderKubeConfig) ∧
    (cfg.clusterProviderStrategy = "" → cfg.kubeConfig = "" → inClusterOk = true →
      resolveStrategy cfg inClusterOk = ClusterProviderInCluster) ∧
    (cfg.clusterProviderStrategy = "" → cfg.kubeConfig = "" → inClusterOk = false →
      resolveStrategy cfg inClusterOk = ClusterProviderKubeConfig) := by
  unfold resolveStrategy
  refine ⟨fun h => by simp [h], fun h h2 => by simp [h, h2], fun h h2 h3 => by simp [h, h2, h3],
    fun h h2 h3 => by simp [h, h2, h3]⟩

/-- Witness for C9: each branch of the resolution order evaluated at a
concrete configuration. -/
theorem resolveStrategy_order_witness :
    resolveStrategy { clusterProviderStrategy := "in-cluster" } true = "in-cluster" ∧
    resolveStrategy { kubeConfig := "/home/u/.kube/config" } true = ClusterProviderKubeConfig ∧
    resolveStrategy {} true = ClusterProviderInCluster ∧
    resolveStrategy {} false = ClusterProviderKubeConfig :=
  ⟨(resolveStrategy_order { clusterProviderStrategy := "in-cluster" } true).1 (by decide),
   (resolveStrategy_order { kubeConfig := "/home/u/.kube/config" } true).2.1 rfl (by decide),
   (resolveStrategy_order {} true).2.2.1 rfl rfl rfl,
   (resolveStrategy_order {} false).2.2.2 rfl rfl rfl⟩

/-- C10: when require-oauth is enabled but the port is empty (stdio
transport), option completion silently forces `RequireOAuth` to `false`, and
the configuration seen by validation and startup has `RequireOAuth = false`;
nothing else of the configuration is changed. -/
theorem completeStatic_stdio_disables_oauth (cfg : StaticConfig)
    (validate run : StaticConfig → Option String)
    (hoauth : cfg.requireOAuth = true) (hport : cfg.port = "") :
    (completeStatic cfg).requireOAuth = false ∧
    completeStatic cfg = { cfg with requireOAuth := false } ∧
    (runEPipeline cfg validate run).1.requireOAuth = false := by
  have hc : completeStatic cfg = { cfg with requireOAuth := false } := by
    unfold completeStatic
    simp [hoauth, hport]
  refine ⟨by rw [hc], hc, ?_⟩
  unfold runEPipeline
  rw [hc]
  cases h : validate { cfg with requireOAuth := false } <;> simp [h]

/-- Witness for C10: a concrete stdio configuration with require-oauth set is
completed with `RequireOAuth = false`. -/
theorem completeStatic_stdio_disables_oauth_witness :
    (completeStatic { requireOAuth := true, port := "" }).requireOAuth = false ∧
    completeStatic { requireOAuth := true, port := "" } =
      { requireOAuth := false, port := "" } ∧
    (runEPipeline { requireOAuth := true, port := "" } (fun _ => none) (fun _ => none)).1.requireOAuth
      = false :=
  completeStatic_stdio_disables_oauth { requireOAuth := true, port := "" }
    (fun _ => none) (fun _ => none) rfl rfl

/-- C1: for every denied-resources configuration and request whose path is
not an unprotected endpoint and whose resolved group/version/kind matches
some denial rule (empty rule fields are wildcards), `RoundTrip` returns the
`resource not allowed` error naming the forbidden GVK, and the delegate
round-tripper is never invoked. -/
theorem accessControl_denied_never_delegates
    (denied : List DeniedResource) (restMapper : String → Except String String)
    (path g v resource kind : String)
    (hunprot : (unprotectedEndpoints.contains path || isDiscoveryPath path) = false)
    (hparse : parseAPIPath path = some (g, v, resource))
    (hmap : restMapper resource = Except.ok kind)
    (hdenied : isDeniedResource denied { group := g, version := v, kind := kind } = true) :
    accessControlRoundTrip (some denied) restMapper path
      = RoundTripResult.deniedErr ("resource not allowed: "
          ++ gvkString { group := g, version := v, kind := kind }) ∧
    accessControlRoundTrip (some denied) restMapper path ≠ RoundTripResult.delegated ∧
    List.IsInfix "resource not allowed".data
      ("resource not allowed: " ++ gvkString { group := g, version := v, kind := kind }).data ∧
    List.IsInfix (gvkString { group := g, version := v, kind := kind }).data
      ("resource not allowed: " ++ gvkString { group := g, version := v, kind := kind }).data := by
  have hmain : accessControlRoundTrip (some denied) restMapper path
      = RoundTripResult.deniedErr ("resource not allowed: "
          ++ gvkString { group := g, version := v, kind := kind }) := by
    unfold accessControlRoundTrip
    rw [hunprot, hparse]
    simp only [hmap, hdenied, if_true, reduceIte, Bool.false_eq_true, if_false]
  refine ⟨hmain, by rw [hmain]; intro h; exact RoundTripResult.noConfusion h, ?_, ?_⟩
  · exact ⟨[], (": " ++ gvkString { group := g, version := v, kind := kind }).data, by
      simp [String.data_append, List.append_assoc]⟩
  · exact ⟨"resource not allowed: ".data, [], by
      simp [String.data_append, List.append_assoc]⟩

/-- Witness for C1: the scenario of the denial tests — denying
`{version = "v1", kind = "Pod"}` makes `GET /api/v1/pods` fail with
`resource not allowed: /v1, Kind=Pod` without reaching the delegate, and a
wildcard rule `{version = "v1", kind = ""}` denies the same request. -/
theorem accessControl_denied_never_delegates_witness :
    accessControlRoundTrip (some [{ group := "", version := "v1", kind := "Pod" }])
        (fun r => if r == "pods" then Except.ok "Pod" else Except.error "no match for resource")
        "/api/v1/pods"
      = RoundTripResult.deniedErr ("resource not allowed: "
          ++ gvkString { group := "", version := "v1", kind := "Pod" }) ∧
    accessControlRoundTrip (some [{ group := "", version := "v1", kind := "Pod" }])
        (fun r => if r == "pods" then Except.ok "Pod" else Except.error "no match for resource")
        "/api/v1/pods" ≠ RoundTripResult.delegated ∧
    accessControlRoundTrip (some [{ group := "", version := "v1", kind := "" }])
        (fun r => if r == "pods" then Except.ok "Pod" else Except.error "no match for resource")
        "/api/v1/pods" ≠ RoundTripResult.delegated :=
  ⟨(accessControl_denied_never_delegates [{ group := "", version := "v1", kind := "Pod" }]
      (fun r => if r == "pods" then Except.ok "Pod" else Except.error "no match for resource")
      "/api/v1/pods" "" "v1" "pods" "Pod" (by decide) (by decide) rfl (by decide)).1,
   (accessControl_denied_never_delegates [{ group := "", version := "v1", kind := "Pod" }]
      (fun r => if r == "pods" then Except.ok "Pod" else Except.error "no match for resource")
      "/api/v1/pods" "" "v1" "pods" "Pod" (by decide) (by decide) rfl (by decide)).2.1,
   (accessControl_denied_never_delegates [{ group := "", version := "v1", kind := "" }]
      (fun r => if r == "pods" then Except.ok "Pod" else Except.error "no match for resource")
      "/api/v1/pods" "" "v1" "pods" "Pod" (by decide) (by decide) rfl (by decide)).2.1⟩

theorem namesToRemove_self (l : List String) : namesToRemove l l = [] := by
  unfold namesToRemove
  rw [List.filter_eq_nil_iff]
  intro a ha
  simp [ha]

/-- C2 counterexample: the claim says a failed reload leaves the previously
effective `StaticConfig` in effect, but `ReloadConfiguration` installs the new
config *before* reconciling: with a provider whose `GetTargets` fails, the
reload returns an error yet the server's config is already the new one. -/
theorem reloadConfiguration_failure_installs_new_config :
    (reloadConfiguration
        { targetsResult := Except.error "connection refused",
          targetParameterName := "", defaultTarget := "",
          toolsetsOf := fun _ => [], mutator := fun _ _ _ t => t,
          targetListFilter := fun _ _ _ => true, mergePrompts := fun a b => a ++ b,
          convertPrompt := fun _ => Except.ok () }
        { config := { toolsets := ["core", "config"] }, enabledTools := ["pods_list"] }
        { toolsets := ["core", "config", "helm"] }).2
      = some "failed to reload toolsets: connection refused" ∧
    (reloadConfiguration
        { targetsResult := Except.error "connection refused",
          targetParameterName := "", defaultTarget := "",
          toolsetsOf := fun _ => [], mutator := fun _ _ _ t => t,
          targetListFilter := fun _ _ _ => true, mergePrompts := fun a b => a ++ b,
          convertPrompt := fun _ => Except.ok () }
        { config := { toolsets := ["core", "config"] }, enabledTools := ["pods_list"] }
        { toolsets := ["core", "config", "helm"] }).1.config
      = { toolsets := ["core", "config", "helm"] } ∧
    ({ toolsets := ["core", "config", "helm"] } : StaticConfig)
      ≠ { toolsets := ["core", "config"] } := by
  refine ⟨rfl, rfl, by decide⟩

/-- C2 (amended): a SIGHUP reload whose `config.Read` fails leaves the server
state entirely unchanged; a `ReloadConfiguration` whose toolset reconciliation
fails at target enumeration leaves the advertised tool/prompt catalog and the
registered names unchanged, but the new `StaticConfig` has already been
installed on the server before the failure. -/
theorem reload_failure_atomicity (env : ReloadEnv) (s : ServerState) (cfg : StaticConfig)
    (e : String) :
    (∀ err : String, sighupReloadIteration (Except.error err) env s = s) ∧
    (env.targetsResult = Except.error e →
      (reloadConfiguration env s cfg).2 = some ("failed to reload toolsets: " ++ e) ∧
      (reloadConfiguration env s cfg).1.enabledTools = s.enabledTools ∧
      (reloadConfiguration env s cfg).1.enabledPrompts = s.enabledPrompts ∧
      (reloadConfiguration env s cfg).1.registeredTools = s.registeredTools ∧
      (reloadConfiguration env s cfg).1.registeredPrompts = s.registeredPrompts ∧
      (reloadConfiguration env s cfg).1.config = cfg) := by
  refine ⟨fun err => rfl, fun h => ?_⟩
  simp only [reloadConfiguration, reloadToolsets, h]
  exact ⟨trivial, trivial, trivial, trivial, trivial, trivial⟩

/-- Witness for the amended C2: a concrete server, a failing read (state kept
verbatim) and a failing target enumeration (catalog kept, config swapped). -/
theorem reload_failure_atomicity_witness :
    sighupReloadIteration (Except.error "toml parse error")
        { targetsResult := Except.ok [""], targetParameterName := "", defaultTarget := "",
          toolsetsOf := fun _ => [], mutator := fun _ _ _ t => t,
          targetListFilter := fun _ _ _ => true, mergePrompts := fun a b => a ++ b,
          convertPrompt := fun _ => Except.ok () }
        { config := { toolsets := ["core"] }, enabledTools := ["events_list"] }
      = { config := { toolsets := ["core"] }, enabledTools := ["events_list"] } ∧
    (reloadConfiguration
        { targetsResult := Except.error "boom", targetParameterName := "", defaultTarget := "",
          toolsetsOf := fun _ => [], mutator := fun _ _ _ t => t,
          targetListFilter := fun _ _ _ => true, mergePrompts := fun a b => a ++ b,
          convertPrompt := fun _ => Except.ok () }
        { config := { toolsets := ["core"] }, enabledTools := ["events_list"] }
        { toolsets := ["helm"] }).1.enabledTools = ["events_list"] :=
  ⟨(reload_failure_atomicity
      { targetsResult := Except.ok [""], targetParameterName := "", defaultTarget := "",
        toolsetsOf := fun _ => [], mutator := fun _ _ _ t => t,
        targetListFilter := fun _ _ _ => true, mergePrompts := fun a b => a ++ b,
        convertPrompt := fun _ => Except.ok () }
      { config := { toolsets := ["core"] }, enabledTools := ["events_list"] }
      { toolsets := ["helm"] } "unused").1 "toml parse error",
   ((reload_failure_atomicity
      { targetsResult := Except.error "boom", targetParameterName := "", defaultTarget := "",
        toolsetsOf := fun _ => [], mutator := fun _ _ _ t => t,
        targetListFilter := fun _ _ _ => true, mergePrompts := fun a b => a ++ b,
        convertPrompt := fun _ => Except.ok () }
      { config := { toolsets := ["core"] }, enabledTools := ["events_list"] }
      { toolsets := ["helm"] } "boom").2 rfl).2.1⟩

/-- C8: reconciliation is idempotent for an unchanged configuration: running
`reloadToolsets` twice against the same environment (same configuration,
provider targets and policies) yields the same advertised tool and prompt
name lists, and the second run's removal list is empty. -/
theorem reloadToolsets_unchanged_config_idempotent (env : ReloadEnv) (s : ServerState)
    (targets : List String) (htargets : env.targetsResult = Except.ok targets) :
    (reloadToolsets env (reloadToolsets env s).1).1.enabledTools
      = (reloadToolsets env s).1.enabledTools ∧
    namesToRemove (reloadToolsets env s).1.enabledTools
      (computeEnabledTools env (reloadToolsets env s).1.config targets) = [] ∧
    (reloadToolsets env (reloadToolsets env s).1).1.enabledPrompts
      = (reloadToolsets env s).1.enabledPrompts := by
  simp only [reloadToolsets, htargets]
  exact ⟨trivial, namesToRemove_self _, trivial⟩

/-- Witness for C8: a concrete environment with one toolset; the second
reload advertises the same catalog and removes nothing. -/
theorem reloadToolsets_unchanged_config_idempotent_witness :
    (reloadToolsets
        { targetsResult := Except.ok [""], targetParameterName := "", defaultTarget := "",
          toolsetsOf := fun _ => [{ tools := [{ name := "pods_list" }], prompts := [] }],
          mutator := fun _ _ _ t => t, targetListFilter := fun _ _ _ => true,
          mergePrompts := fun a b => a ++ b, convertPrompt := fun _ => Except.ok () }
        (reloadToolsets
          { targetsResult := Except.ok [""], targetParameterName := "", defaultTarget := "",
            toolsetsOf := fun _ => [{ tools := [{ name := "pods_list" }], prompts := [] }],
            mutator := fun _ _ _ t => t, targetListFilter := fun _ _ _ => true,
            mergePrompts := fun a b => a ++ b, convertPrompt := fun _ => Except.ok () }
          { config := { toolsets := ["core"] } }).1).1.enabledTools
      = (reloadToolsets
          { targetsResult := Except.ok [""], targetParameterName := "", defaultTarget := "",
            toolsetsOf := fun _ => [{ tools := [{ name := "pods_list" }], prompts := [] }],
            mutator := fun _ _ _ t => t, targetListFilter := fun _ _ _ => true,
            mergePrompts := fun a b => a ++ b, convertPrompt := fun _ => Except.ok () }
          { config := { toolsets := ["core"] } }).1.enabledTools ∧
    namesToRemove
        (reloadToolsets
          { targetsResult := Except.ok [""], targetParameterName := "", defaultTarget := "",
            toolsetsOf := fun _ => [{ tools := [{ name := "pods_list" }], prompts := [] }],
            mutator := fun _ _ _ t => t, targetListFilter := fun _ _ _ => true,
            mergePrompts := fun a b => a ++ b, convertPrompt := fun _ => Except.ok () }
          { config := { toolsets := ["core"] } }).1.enabledTools
        (computeEnabledTools
          { targetsResult := Except.ok [""], targetParameterName := "", defaultTarget := "",
            toolsetsOf := fun _ => [{ tools := [{ name := "pods_list" }], prompts := [] }],
            mutator := fun _ _ _ t => t, targetListFilter := fun _ _ _ => true,
            mergePrompts := fun a b => a ++ b, convertPrompt := fun _ => Except.ok () }
          (reloadToolsets
            { targetsResult := Except.ok [""], targetParameterName := "", defaultTarget := "",
              toolsetsOf := fun _ => [{ tools := [{ name := "pods_list" }], prompts := [] }],
              mutator := fun _ _ _ t => t, targetListFilter := fun _ _ _ => true,
              mergePrompts := fun a b => a ++ b, convertPrompt := fun _ => Except.ok () }
            { config := { toolsets := ["core"] } }).1.config [""]) = [] :=
  ⟨(reloadToolsets_unchanged_config_idempotent
      { targetsResult := Except.ok [""], targetParameterName := "", defaultTarget := "",
        toolsetsOf := fun _ => [{ tools := [{ name := "pods_list" }], prompts := [] }],
        mutator := fun _ _ _ t => t, targetListFilter := fun _ _ _ => true,
        mergePrompts := fun a b => a ++ b, convertPrompt := fun _ => Except.ok () }
      { config := { toolsets := ["core"] } } [""] rfl).1,
   (reloadToolsets_unchanged_config_idempotent
      { targetsResult := Except.ok [""], targetParameterName := "", defaultTarget := "",
        toolsetsOf := fun _ => [{ tools := [{ name := "pods_list" }], prompts := [] }],
        mutator := fun _ _ _ t => t, targetListFilter := fun _ _ _ => true,
        mergePrompts := fun a b => a ++ b, convertPrompt := fun _ => Except.ok () }
      { config := { toolsets := ["core"] } } [""] rfl).2.1⟩

/-- C4: with require-oauth enabled, `/healthz` and the well-known endpoints
are forwarded without any credential check; a request without a
`Authorization: Bearer ...` header gets a 401 whose `WWW-Authenticate` value
contains `error="missing_token"`; a bearer token failing parsing, offline
validation, or OIDC provider verification gets a 401 with
`error="invalid_token"`; with require-oauth disabled every request is
forwarded without validation. -/
theorem authorizationMiddleware_spec (cfg : StaticConfig)
    (provider : Option (String → Option String))
    (parseJWT : String → Except String JWTClaims)
    (joseValidate : JWTClaims → Option String → Option String)
    (r : HttpRequest) :
    ((r.path == healthEndpoint || WellKnownEndpoints.contains r.escapedPath) = true →
      authorizationMiddleware cfg provider parseJWT joseValidate r
        = AuthOutcome.forwarded none) ∧
    (cfg.requireOAuth = false →
      authorizationMiddleware cfg provider parseJWT joseValidate r
        = AuthOutcome.forwarded none) ∧
    ((r.path == healthEndpoint || WellKnownEndpoints.contains r.escapedPath) = false →
      cfg.requireOAuth = true →
      (r.authHeader == "" || !(startsWithStr r.authHeader "Bearer ")) = true →
      authorizationMiddleware cfg provider parseJWT joseValidate r
        = AuthOutcome.unauthorized
            (wwwAuthenticateHeaderFor cfg ++ ", error=\"missing_token\"") "missing_token"
            "Unauthorized: Bearer token required" ∧
      List.IsInfix "error=\"missing_token\"".data
        (wwwAuthenticateHeaderFor cfg ++ ", error=\"missing_token\"").data) ∧
    ((r.path == healthEndpoint || WellKnownEndpoints.contains r.escapedPath) = false →
      cfg.requireOAuth = true →
      (r.authHeader == "" || !(startsWithStr r.authHeader "Bearer ")) = false →
      (∀ e, parseJWT (trimBearer r.authHeader) = Except.error e →
        authorizationMiddleware cfg provider parseJWT joseValidate r
          = AuthOutcome.unauthorized
              (wwwAuthenticateHeaderFor cfg ++ ", error=\"invalid_token\"") "invalid_token"
              "Unauthorized: Invalid token") ∧
      (∀ claims eo, parseJWT (trimBearer r.authHeader) = Except.ok claims →
        validateOffline joseValidate claims cfg.oauthAudience = some eo →
        authorizationMiddleware cfg provider parseJWT joseValidate r
          = AuthOutcome.unauthorized
              (wwwAuthenticateHeaderFor cfg ++ ", error=\"invalid_token\"") "invalid_token"
              "Unauthorized: Invalid token") ∧
      (∀ claims, parseJWT (trimBearer r.authHeader) = Except.ok claims →
        validateOffline joseValidate claims cfg.oauthAudience = none →
        (∀ ep, validateWithProvider provider claims = some ep →
          authorizationMiddleware cfg provider parseJWT joseValidate r
            = AuthOutcome.unauthorized
                (wwwAuthenticateHeaderFor cfg ++ ", error=\"invalid_token\"") "invalid_token"
                "Unauthorized: Invalid token") ∧
        (validateWithProvider provider claims = none →
          authorizationMiddleware cfg provider parseJWT joseValidate r
            = AuthOutcome.forwarded (some (getScopes claims)))) ∧
      List.IsInfix "error=\"invalid_token\"".data
        (wwwAuthenticateHeaderFor cfg ++ ", error=\"invalid_token\"").data) := by
  have hmiss : (", ".data ++ "error=\"missing_token\"".data)
      = (", error=\"missing_token\"").data := by decide
  have hinv : (", ".data ++ "error=\"invalid_token\"".data)
      = (", error=\"invalid_token\"").data := by decide
  refine ⟨?_, ?_, ?_, ?_⟩
  · intro hbypass
    unfold authorizationMiddleware
    rw [hbypass]
    rfl
  · intro hoauth
    unfold authorizationMiddleware
    by_cases hbypass : (r.path == healthEndpoint || WellKnownEndpoints.contains r.escapedPath)
      = true
    · rw [hbypass]
      rfl
    · rw [Bool.not_eq_true] at hbypass
      rw [hbypass, hoauth]
      rfl
  · intro hbypass hoauth hmissing
    refine ⟨?_, ?_⟩
    · unfold authorizationMiddleware
      rw [hbypass, hoauth, hmissing]
      rfl
    · exact ⟨(wwwAuthenticateHeaderFor cfg).data ++ ", ".data, [], by
        simp [String.data_append, List.append_assoc, hmiss]⟩
  · intro hbypass hoauth hbearer
    have hmain : authorizationMiddleware cfg provider parseJWT joseValidate r =
        (match parseJWT (trimBearer r.authHeader) with
         | Except.error _ =>
           AuthOutcome.unauthorized
             (wwwAuthenticateHeaderFor cfg ++ ", error=\"invalid_token\"") "invalid_token"
             "Unauthorized: Invalid token"
         | Except.ok claims =>
           match validateOffline joseValidate claims cfg.oauthAudience with
           | some _ =>
             AuthOutcome.unauthorized
               (wwwAuthenticateHeaderFor cfg ++ ", error=\"invalid_token\"") "invalid_token"
               "Unauthorized: Invalid token"
           | none =>
             match validateWithProvider provider claims with
             | some _ =>
               AuthOutcome.unauthorized
                 (wwwAuthenticateHeaderFor cfg ++ ", error=\"invalid_token\"") "invalid_token"
                 "Unauthorized: Invalid token"
             | none => AuthOutcome.forwarded (some (getScopes claims))) := by
      unfold authorizationMiddleware
      rw [hbypass, hoauth, hbearer]
      rfl
    refine ⟨?_, ?_, ?_, ?_⟩
    · intro e he
      rw [hmain, he]
    · intro claims eo hc ho
      rw [hmain, hc]
      simp only [ho]
    · intro claims hc ho
      refine ⟨?_, ?_⟩
      · intro ep hp
        rw [hmain, hc]
        simp only [ho, hp]
      · intro hp
        rw [hmain, hc]
        simp only [ho, hp]
    · exact ⟨(wwwAuthenticateHeaderFor cfg).data ++ ", ".data, [], by
        simp [String.data_append, List.append_assoc, hinv]⟩

/-- Witness for C4: concrete requests through a concrete middleware
configuration — a well-known path forwarded uncheck­ed, a missing bearer
rejected with `missing_token`, an invalid token rejected with
`invalid_token`, and require-oauth disabled forwarding everything. -/
theorem authorizationMiddleware_spec_witness :
    authorizationMiddleware { requireOAuth := true, port := "8080" } none
        (fun _ => Except.ok {}) (fun _ _ => none)
        { path := "/.well-known/openid-configuration",
          escapedPath := "/.well-known/openid-configuration", authHeader := "" }
      = AuthOutcome.forwarded none ∧
    authorizationMiddleware { requireOAuth := true, port := "8080" } none
        (fun _ => Except.ok {}) (fun _ _ => none)
        { path := "/mcp", escapedPath := "/mcp", authHeader := "" }
      = AuthOutcome.unauthorized
          (wwwAuthenticateHeaderFor { requireOAuth := true, port := "8080" }
            ++ ", error=\"missing_token\"") "missing_token"
          "Unauthorized: Bearer token required" ∧
    authorizationMiddleware { requireOAuth := true, port := "8080" } none
        (fun _ => Except.error "jwt malformed") (fun _ _ => none)
        { path := "/mcp", escapedPath := "/mcp", authHeader := "Bearer not-a-jwt" }
      = AuthOutcome.unauthorized
          (wwwAuthenticateHeaderFor { requireOAuth := true, port := "8080" }
            ++ ", error=\"invalid_token\"") "invalid_token" "Unauthorized: Invalid token" ∧
    authorizationMiddleware { requireOAuth := false, port := "8080" } none
        (fun _ => Except.ok {}) (fun _ _ => none)
        { path := "/mcp", escapedPath := "/mcp", authHeader := "" }
      = AuthOutcome.forwarded none :=
  ⟨(authorizationMiddleware_spec { requireOAuth := true, port := "8080" } none
      (fun _ => Except.ok {}) (fun _ _ => none)
      { path := "/.well-known/openid-configuration",
        escapedPath := "/.well-known/openid-configuration", authHeader := "" }).1 (by decide),
   ((authorizationMiddleware_spec { requireOAuth := true, port := "8080" } none
      (fun _ => Except.ok {}) (fun _ _ => none)
      { path := "/mcp", escapedPath := "/mcp", authHeader := "" }).2.2.1
      (by decide) rfl (by decide)).1,
   ((authorizationMiddleware_spec { requireOAuth := true, port := "8080" } none
      (fun _ => Except.error "jwt malformed") (fun _ _ => none)
      { path := "/mcp", escapedPath := "/mcp", authHeader := "Bearer not-a-jwt" }).2.2.2
      (by decide) rfl (by decide)).1 "jwt malformed" rfl,
   (authorizationMiddleware_spec { requireOAuth := false, port := "8080" } none
      (fun _ => Except.ok {}) (fun _ _ => none)
      { path := "/mcp", escapedPath := "/mcp", authHeader := "" }).2.1 rfl⟩

/-- C5: both exchanger variants POST a form-urlencoded body to the configured
token URL carrying `grant_type=urn:ietf:params:oauth:grant-type:token-exchange`,
the subject token, its configured `subject_token_type`, and the audience; the
RFC 8693 variant additionally and exclusively sets
`requested_token_type=urn:ietf:params:oauth:token-type:access_token`; the
Keycloak-v1 variant additionally sets `subject_issuer` when configured; client
credentials go into the form body when `auth_style` is `params` or empty, and
into an HTTP Basic `Authorization` header when `auth_style` is `header`. -/
theorem tokenExchange_request_protocol (cfg : TargetTokenExchangeConfig) (tok : String) :
    (rfc8693ExchangeRequest cfg tok).method = "POST" ∧
    (keycloakV1ExchangeRequest cfg tok).method = "POST" ∧
    (rfc8693ExchangeRequest cfg tok).url = cfg.tokenURL ∧
    (keycloakV1ExchangeRequest cfg tok).url = cfg.tokenURL ∧
    (rfc8693ExchangeRequest cfg tok).contentTypeHeader = ContentTypeXWWWFormUrlEncoded ∧
    (keycloakV1ExchangeRequest cfg tok).contentTypeHeader = ContentTypeXWWWFormUrlEncoded ∧
    valuesGet (rfc8693ExchangeRequest cfg tok).form FormKeyGrantType
      = some GrantTypeTokenExchange ∧
    valuesGet (keycloakV1ExchangeRequest cfg tok).form FormKeyGrantType
      = some GrantTypeTokenExchange ∧
    valuesGet (rfc8693ExchangeRequest cfg tok).form FormKeySubjectToken = some tok ∧
    valuesGet (keycloakV1ExchangeRequest cfg tok).form FormKeySubjectToken = some tok ∧
    valuesGet (rfc8693ExchangeRequest cfg tok).form FormKeySubjectTokenType
      = some cfg.subjectTokenType ∧
    valuesGet (keycloakV1ExchangeRequest cfg tok).form FormKeySubjectTokenType
      = some cfg.subjectTokenType ∧
    valuesGet (rfc8693ExchangeRequest cfg tok).form FormKeyAudience = some cfg.audience ∧
    valuesGet (keycloakV1ExchangeRequest cfg tok).form FormKeyAudience = some cfg.audience ∧
    valuesGet (rfc8693ExchangeRequest cfg tok).form FormKeyRequestedTokenType
      = some TokenTypeAccessToken ∧
    valuesGet (keycloakV1ExchangeRequest cfg tok).form FormKeyRequestedTokenType = none ∧
    valuesGet (rfc8693ExchangeRequest cfg tok).form FormKeySubjectIssuer = none ∧
    (cfg.subjectIssuer ≠ "" →
      valuesGet (keycloakV1ExchangeRequest cfg tok).form FormKeySubjectIssuer
        = some cfg.subjectIssuer) ∧
    (cfg.clientID ≠ "" → cfg.authStyle ≠ AuthStyleHeader →
      valuesGet (rfc8693ExchangeRequest cfg tok).form FormKeyClientID = some cfg.clientID ∧
      valuesGet (keycloakV1ExchangeRequest cfg tok).form FormKeyClientID = some cfg.clientID ∧
      valuesGet (rfc8693ExchangeRequest cfg tok).headers HeaderAuthorization = none ∧
      valuesGet (keycloakV1ExchangeRequest cfg tok).headers HeaderAuthorization = none) ∧
    (cfg.clientID ≠ "" → cfg.authStyle = AuthStyleHeader →
      valuesGet (rfc8693ExchangeRequest cfg tok).headers HeaderAuthorization
        = some ("Basic " ++ base64EncodeString (cfg.clientID ++ ":" ++ cfg.clientSecret)) ∧
      valuesGet (keycloakV1ExchangeRequest cfg tok).headers HeaderAuthorization
        = some ("Basic " ++ base64EncodeString (cfg.clientID ++ ":" ++ cfg.clientSecret)) ∧
      valuesGet (rfc8693ExchangeRequest cfg tok).form FormKeyClientID = none ∧
      valuesGet (keycloakV1ExchangeRequest cfg tok).form FormKeyClientID = none) := by
  obtain ⟨rg, rst, rstt, raud, rreq, rsi, rcid, rcsec⟩ := rfc8693CoreForm_get cfg tok
  obtain ⟨kg, kst, kstt, kaud, kreq, ksiPos, ksiNeg, kcid, kcsec⟩ := keycloakV1CoreForm_get cfg tok
  have formEq : ∀ (core : Values) (k : String), k ≠ FormKeyClientID → k ≠ FormKeyClientSecret →
      valuesGet (injectClientAuth cfg core []).1 k = valuesGet core k :=
    fun core k h1 h2 => injectClientAuth_form_other cfg core [] k h1 h2
  refine ⟨rfl, rfl, rfl, rfl, rfl, rfl, ?_, ?_, ?_, ?_, ?_, ?_, ?_, ?_, ?_, ?_, ?_, ?_, ?_, ?_⟩
  · exact (formEq _ _ (by decide) (by decide)).trans rg
  · exact (formEq _ _ (by decide) (by decide)).trans kg
  · exact (formEq _ _ (by decide) (by decide)).trans rst
  · exact (formEq _ _ (by decide) (by decide)).trans kst
  · exact (formEq _ _ (by decide) (by decide)).trans rstt
  · exact (formEq _ _ (by decide) (by decide)).trans kstt
  · exact (formEq _ _ (by decide) (by decide)).trans raud
  · exact (formEq _ _ (by decide) (by decide)).trans kaud
  · exact (formEq _ _ (by decide) (by decide)).trans rreq
  · exact (formEq _ _ (by decide) (by decide)).trans kreq
  · exact (formEq _ _ (by decide) (by decide)).trans rsi
  · exact fun hi => (formEq _ _ (by decide) (by decide)).trans (ksiPos hi)
  · intro hid hstyle
    obtain ⟨hr1, hr2⟩ := injectClientAuth_params cfg (rfc8693CoreForm cfg tok) [] hid hstyle
    obtain ⟨hk1, hk2⟩ := injectClientAuth_params cfg (keycloakV1CoreForm cfg tok) [] hid hstyle
    refine ⟨hr1, hk1, ?_, ?_⟩
    · show valuesGet (injectClientAuth cfg (rfc8693CoreForm cfg tok) []).2
        HeaderAuthorization = none
      rw [hr2]
      rfl
    · show valuesGet (injectClientAuth cfg (keycloakV1CoreForm cfg tok) []).2
        HeaderAuthorization = none
      rw [hk2]
      rfl
  · intro hid hstyle
    obtain ⟨hr1, hr2⟩ := injectClientAuth_headerStyle cfg (rfc8693CoreForm cfg tok) [] hid hstyle
    obtain ⟨hk1, hk2⟩ :=
      injectClientAuth_headerStyle cfg (keycloakV1CoreForm cfg tok) [] hid hstyle
    refine ⟨hr2, hk2, ?_, ?_⟩
    · show valuesGet (injectClientAuth cfg (rfc8693CoreForm cfg tok) []).1 FormKeyClientID = none
      rw [hr1]
      exact rcid
    · show valuesGet (injectClientAuth cfg (keycloakV1CoreForm cfg tok) []).1
        FormKeyClientID = none
      rw [hk1]
      exact kcid

/-- Witness for C5: the protocol facts evaluated at two concrete
configurations, one with body-style client credentials and a subject issuer,
one with header-style (HTTP Basic) credentials. -/
theorem tokenExchange_request_protocol_witness :
    valuesGet (rfc8693ExchangeRequest
        { tokenURL := "https://idp/token", clientID := "cid", clientSecret := "sec",
          audience := "aud", subjectTokenType := "jwt-type", authStyle := "params" }
        "subject-tok").form FormKeyGrantType = some GrantTypeTokenExchange ∧
    valuesGet (rfc8693ExchangeRequest
        { tokenURL := "https://idp/token", clientID := "cid", clientSecret := "sec",
          audience := "aud", subjectTokenType := "jwt-type", authStyle := "params" }
        "subject-tok").form FormKeyClientID = some "cid" ∧
    valuesGet (keycloakV1ExchangeRequest
        { tokenURL := "https://idp/token", clientID := "cid", clientSecret := "sec",
          audience := "aud", subjectTokenType := "jwt-type", subjectIssuer := "other-realm",
          authStyle := "params" }
        "subject-tok").form FormKeySubjectIssuer = some "other-realm" ∧
    valuesGet (keycloakV1ExchangeRequest
        { tokenURL := "https://idp/token", clientID := "cid", clientSecret := "sec",
          audience := "aud", subjectTokenType := "jwt-type", subjectIssuer := "other-realm",
          authStyle := "params" }
        "subject-tok").form FormKeyRequestedTokenType = none ∧
    valuesGet (rfc8693ExchangeRequest
        { tokenURL := "https://idp/token", clientID := "cid", clientSecret := "sec",
          audience := "aud", subjectTokenType := "jwt-type", authStyle := "header" }
        "subject-tok").headers HeaderAuthorization
      = some ("Basic " ++ base64EncodeString ("cid" ++ ":" ++ "sec")) :=
  ⟨(tokenExchange_request_protocol
      { tokenURL := "https://idp/token", clientID := "cid", clientSecret := "sec",
        audience := "aud", subjectTokenType := "jwt-type", authStyle := "params" }
      "subject-tok").2.2.2.2.2.2.1,
   ((tokenExchange_request_protocol
      { tokenURL := "https://idp/token", clientID := "cid", clientSecret := "sec",
        audience := "aud", subjectTokenType := "jwt-type", authStyle := "params" }
      "subject-tok").2.2.2.2.2.2.2.2.2.2.2.2.2.2.2.2.2.2.1 (by decide) (by decide)).1,
   (tokenExchange_request_protocol
      { tokenURL := "https://idp/token", clientID := "cid", clientSecret := "sec",
        audience := "aud", subjectTokenType := "jwt-type", subjectIssuer := "other-realm",
        authStyle := "params" }
      "subject-tok").2.2.2.2.2.2.2.2.2.2.2.2.2.2.2.2.2.1 (by decide),
   (tokenExchange_request_protocol
      { tokenURL := "https://idp/token", clientID := "cid", clientSecret := "sec",
        audience := "aud", subjectTokenType := "jwt-type", subjectIssuer := "other-realm",
        authStyle := "params" }
      "subject-tok").2.2.2.2.2.2.2.2.2.2.2.2.2.2.2.1,
   ((tokenExchange_request_protocol
      { tokenURL := "https://idp/token", clientID := "cid", clientSecret := "sec",
        audience := "aud", subjectTokenType := "jwt-type", authStyle := "header" }
      "subject-tok").2.2.2.2.2.2.2.2.2.2.2.2.2.2.2.2.2.2.2 (by decide) rfl).1⟩

/-- C7 counterexample: the claim says a non-200 token-exchange response yields
an error that does not include the response body verbatim, but
`doTokenExchange` formats the error as
`token exchange failed with status %d: %s` with the raw body — at status 500
with body `idp-secret-details`, the body appears verbatim in the error text. -/
theorem doTokenExchange_error_includes_body :
    doTokenExchangeResult { statusCode := 500, body := "idp-secret-details" }
        (fun _ => Except.error "unused")
      = Except.error "token exchange failed with status 500: idp-secret-details" ∧
    List.IsInfix "idp-secret-details".data
      "token exchange failed with status 500: idp-secret-details".data := by
  constructor
  · rfl
  · decide

/-- C7 (amended): a non-200 token-exchange response yields an error whose text
includes the status code *and* the raw response body verbatim
(`token exchange failed with status <code>: <body>`); the HTTP client used for
the exchange has a 30-second timeout. -/
theorem doTokenExchange_non200_error (resp : HttpResponse)
    (parseJson : String → Except String TokenExchangeResponse)
    (h : resp.statusCode ≠ 200) :
    doTokenExchangeResult resp parseJson
      = Except.error ("token exchange failed with status " ++ toString resp.statusCode ++ ": "
          ++ resp.body) ∧
    List.IsInfix (toString resp.statusCode).data
      ("token exchange failed with status " ++ toString resp.statusCode ++ ": "
        ++ resp.body).data ∧
    List.IsInfix resp.body.data
      ("token exchange failed with status " ++ toString resp.statusCode ++ ": "
        ++ resp.body).data ∧
    tokenExchangeHTTPClientTimeoutSeconds = 30 := by
  refine ⟨?_, ?_, ?_, rfl⟩
  · unfold doTokenExchangeResult
    rw [if_pos h]
  · exact ⟨"token exchange failed with status ".data, (": " ++ resp.body).data, by
      simp [String.data_append, List.append_assoc]⟩
  · exact ⟨("token exchange failed with status " ++ toString resp.statusCode ++ ": ").data,
      [], by simp [String.data_append, List.append_assoc]⟩

/-- Witness for the amended C7: a concrete 403 response. -/
theorem doTokenExchange_non200_error_witness :
    doTokenExchangeResult { statusCode := 403, body := "forbidden" }
        (fun _ => Except.error "unused")
      = Except.error ("token exchange failed with status " ++ toString (403 : Nat) ++ ": "
          ++ "forbidden") ∧
    tokenExchangeHTTPClientTimeoutSeconds = 30 :=
  ⟨(doTokenExchange_non200_error { statusCode := 403, body := "forbidden" }
      (fun _ => Except.error "unused") (by decide)).1,
   (doTokenExchange_non200_error { statusCode := 403, body := "forbidden" }
      (fun _ => Except.error "unused") (by decide)).2.2.2⟩

/-- C3: when a per-target token exchange is attempted (bearer present,
provider exposes a per-target config, strategy registered) and the exchanger
returns an error, `ExchangeTokenInContext` returns the context unchanged — the
caller's original bearer token remains the Authorization value; only on a
successful exchange is the Authorization value replaced by the exchanged
access token. -/
theorem exchangeTokenInContext_error_keeps_original (env : TokenExchangeEnv) (ctx : Ctx)
    (target : String) (exCfg : TargetTokenExchangeConfig) (auth : String)
    (hauth : ctxValue ctx OAuthAuthorizationHeaderKey = some (CtxValue.str auth))
    (hbearer : startsWithStr auth "Bearer " = true)
    (htep : env.hasTokenExchangeProvider = true)
    (hcfg : env.getTokenExchangeConfig target = some exCfg)
    (hreg : env.registeredStrategies.contains env.strategy = true) :
    (∀ e, env.exchange exCfg (trimBearer auth) = Except.error e →
      exchangeTokenInContext env ctx target = ctx ∧
      ctxValue (exchangeTokenInContext env ctx target) OAuthAuthorizationHeaderKey
        = some (CtxValue.str auth)) ∧
    (∀ t, env.exchange exCfg (trimBearer auth) = Except.ok t →
      exchangeTokenInContext env ctx target
        = ctxWithValue ctx OAuthAuthorizationHeaderKey
            (CtxValue.str ("Bearer " ++ t.accessToken)) ∧
      ctxValue (exchangeTokenInContext env ctx target) OAuthAuthorizationHeaderKey
        = some (CtxValue.str ("Bearer " ++ t.accessToken))) := by
  have hmain : exchangeTokenInContext env ctx target =
      match env.exchange exCfg (trimBearer auth) with
      | Except.error _ => ctx
      | Except.ok tok => ctxWithValue ctx OAuthAuthorizationHeaderKey
          (CtxValue.str ("Bearer " ++ tok.accessToken)) := by
    unfold exchangeTokenInContext
    rw [hauth]
    simp [hbearer, htep, hcfg, hreg]
    intro hmem
    exact absurd (by simpa using hreg) hmem
  constructor
  · intro e he
    rw [hmain, he]
    exact ⟨rfl, hauth⟩
  · intro t ht
    rw [hmain, ht]
    refine ⟨rfl, ?_⟩
    simp [ctxWithValue, ctxValue]

/-- Witness for C3: a concrete context and environment, evaluated once with a
failing exchanger (context unchanged, original bearer kept) and once with a
succeeding exchanger (Authorization replaced). -/
theorem exchangeTokenInContext_error_keeps_original_witness :
    (exchangeTokenInContext
        { hasTokenExchangeProvider := true,
          getTokenExchangeConfig := fun _ => some { tokenURL := "https://idp/token" },
          strategy := "keycloak-v1", registeredStrategies := ["keycloak-v1", "rfc8693"],
          exchange := fun _ _ => Except.error "exchange refused",
          stsEnabled := false, hasHTTPClient := false,
          stsExchange := fun _ => Except.error "unused" }
        [(OAuthAuthorizationHeaderKey, CtxValue.str "Bearer original-token")] "ctx-1"
      = [(OAuthAuthorizationHeaderKey, CtxValue.str "Bearer original-token")]) ∧
    (exchangeTokenInContext
        { hasTokenExchangeProvider := true,
          getTokenExchangeConfig := fun _ => some { tokenURL := "https://idp/token" },
          strategy := "keycloak-v1", registeredStrategies := ["keycloak-v1", "rfc8693"],
          exchange := fun _ _ => Except.ok { accessToken := "exchanged-token" },
          stsEnabled := false, hasHTTPClient := false,
          stsExchange := fun _ => Except.error "unused" }
        [(OAuthAuthorizationHeaderKey, CtxValue.str "Bearer original-token")] "ctx-1"
      = ctxWithValue [(OAuthAuthorizationHeaderKey, CtxValue.str "Bearer original-token")]
          OAuthAuthorizationHeaderKey (CtxValue.str ("Bearer " ++ "exchanged-token"))) :=
  ⟨((exchangeTokenInContext_error_keeps_original
      { hasTokenExchangeProvider := true,
        getTokenExchangeConfig := fun _ => some { tokenURL := "https://idp/token" },
        strategy := "keycloak-v1", registeredStrategies := ["keycloak-v1", "rfc8693"],
        exchange := fun _ _ => Except.error "exchange refused",
        stsEnabled := false, hasHTTPClient := false,
        stsExchange := fun _ => Except.error "unused" }
      [(OAuthAuthorizationHeaderKey, CtxValue.str "Bearer original-token")] "ctx-1"
      { tokenURL := "https://idp/token" } "Bearer original-token"
      (by simp [ctxValue]) (by decide) rfl rfl rfl).1 "exchange refused" rfl).1,
   ((exchangeTokenInContext_error_keeps_original
      { hasTokenExchangeProvider := true,
        getTokenExchangeConfig := fun _ => some { tokenURL := "https://idp/token" },
        strategy := "keycloak-v1", registeredStrategies := ["keycloak-v1", "rfc8693"],
        exchange := fun _ _ => Except.ok { accessToken := "exchanged-token" },
        stsEnabled := false, hasHTTPClient := false,
        stsExchange := fun _ => Except.error "unused" }
      [(OAuthAuthorizationHeaderKey, CtxValue.str "Bearer original-token")] "ctx-1"
      { tokenURL := "https://idp/token" } "Bearer original-token"
      (by simp [ctxValue]) (by decide) rfl rfl rfl).2
      { accessToken := "exchanged-token" } rfl).1⟩

/-- C6 counterexample: the claim says the target defaults to
`DefaultTarget()` whenever the parameter is absent *or empty*, but
`GetString` returns a present-but-empty string argument verbatim: with
default target `"prod-cluster"` and argument `context=""`, the cluster used
is `""`, not the default. -/
theorem selectCluster_empty_string_not_defaulted :
    selectCluster { targetParameterName := "context", defaultTarget := "prod-cluster" }
      [("context", ArgValue.str "")] = "" ∧
    selectCluster { targetParameterName := "context", defaultTarget := "prod-cluster" }
      [("context", ArgValue.str "")] ≠ "prod-cluster" := by
  constructor
  · rfl
  · decide

/-- C6 (amended): the target used to obtain the derived Kubernetes client is
the value of the target parameter extracted from the call arguments; it
defaults to the provider's `DefaultTarget()` when the parameter is absent or
is not a string, while a present string value — including the empty string —
is used verbatim. -/
theorem selectCluster_spec (p : ProviderInfo) (arguments : List (String × ArgValue)) :
    (arguments.find? (fun q => q.1 = p.targetParameterName) = none →
      selectCluster p arguments = p.defaultTarget) ∧
    (∀ k s, arguments.find? (fun q => q.1 = p.targetParameterName) = some (k, ArgValue.str s) →
      selectCluster p arguments = s) ∧
    (∀ k, arguments.find? (fun q => q.1 = p.targetParameterName) = some (k, ArgValue.nonString) →
      selectCluster p arguments = p.defaultTarget) := by
  unfold selectCluster getString
  refine ⟨fun h => by rw [h], fun k s h => by rw [h], fun k h => by rw [h]⟩

/-- Witness for the amended C6: absent parameter defaults, a present string
(empty or not) is used verbatim, a non-string value defaults. -/
theorem selectCluster_spec_witness :
    selectCluster { targetParameterName := "context", defaultTarget := "dflt" } [] = "dflt" ∧
    selectCluster { targetParameterName := "context", defaultTarget := "dflt" }
      [("context", ArgValue.str "ctx-1")] = "ctx-1" ∧
    selectCluster { targetParameterName := "context", defaultTarget := "dflt" }
      [("context", ArgValue.nonString)] = "dflt" :=
  ⟨(selectCluster_spec { targetParameterName := "context", defaultTarget := "dflt" } []).1 rfl,
   (selectCluster_spec { targetParameterName := "context", defaultTarget := "dflt" }
      [("context", ArgValue.str "ctx-1")]).2.1 "context" "ctx-1" rfl,
   (selectCluster_spec { targetParameterName := "context", defaultTarget := "dflt" }
      [("context", ArgValue.nonString)]).2.2 "context" rfl⟩

end KubernetesMcpServer
